import Mathlib

/-!
# Verification of the swift-move dispatch / lifecycle engine

Shallow embedding of the move dispatch core of the `swift-move` repository
(`src/services/moveRequestService.js`, together with the pieces of
`src/models/moveModel.js`, `src/models/driverModel.js`,
`src/utils/Constant/enum.js` and `src/services/googleMapsService.js` that the
dispatch engine depends on).

Modelling conventions:

* Mongo object ids (move ids, driver document ids, user ids) are `Nat`.
* The persistent stores (`Move` collection, `Driver` collection) and the
  in-process `pendingDriverNotifications` map are bundled into one `SysState`.
  Each service method becomes a pure function `SysState → … → OpResult`
  returning the successor state, the list of socket notifications emitted
  (in emission order), and an optional error code (`none` = the promise
  resolved; `some c` = an `ApiError` with HTTP code `c` was thrown).
* Mongoose transactions: an operation whose transaction aborts returns the
  original state unchanged.  Effects performed after the commit point persist
  even when the function subsequently throws (this matters for
  `acceptMoveRequest`, whose ETA section runs after the commit).
* Mongoose schema validation runs on every `move.save()`: a write that sets
  `status` to a string outside the `Move` schema's six-value enum
  (`src/models/moveModel.js`, lines 13-17) throws a `ValidationError`, which
  the surrounding code catches by aborting the transaction.  `saveMoveStatus`
  models a status write followed by such a save (`none` = the save threw);
  `saveMoveDoc` is the same validator on a whole document, stated
  independently for the schema-level claims.
* The `Move` schema declares its `driver` field with `ref: 'user'`
  (`src/models/moveModel.js`, lines 9-12), while the engine stores `Driver`
  DOCUMENT ids in that field, so `populate("driver")` resolves those ids
  against the `user` collection and always yields `null`.  `driverUserOf`
  models the `move.driver.user._id` read off the populated value — constantly
  `none` — and the operations that authorize through it (`updateMoveProgress`,
  the driver branch of `cancelMoveRequest`) behave accordingly.
* `getNearbyDrivers` (`src/services/googleMapsService.js`, lines 74-116)
  returns candidate objects whose only identity field is
  `driverId := driver.user._id` (a USER id); there is no `driverUserId` key,
  so every `driverToNotify.driverUserId` read in `moveRequestService.js` is
  `undefined`, modelled as `Option Nat` being `none` (in
  `NotifState.currentDriverUserId` and in the offer notification target).
* External collaborators are parameters: the Geo Matching Provider result is
  an `Option (List Candidate)` argument (`none` models `getNearbyDrivers`
  throwing, `some l` a ranked candidate list), and the route computation of
  `googleMapsService.calculateRoute` in the accept path is an `Option Route`
  (`none` models the route being unavailable: locations missing or the call
  throwing).
* `setTimeout` timers are not modelled as real time: the timer firing is the
  separate operation `handleDriverResponseTimeout`, and "the timer is
  cancelled" is modelled by the pending entry being removed or replaced
  (a timeout for a deleted/replaced entry is a no-op, exactly as in the
  source where the stale callback finds no matching notification state).
-/

namespace SwiftMove

/-- Move lifecycle statuses, from `moveStatus` in `src/utils/Constant/enum.js`. -/
inductive MoveStatus where
  | pending
  | accepted
  | arrivedAtPickup
  | pickedUp
  | arrivedAtDelivery
  | delivered
  | cancelledByCustomer
  | cancelledByDriver
  | cancelledByAdmin
  | noDriversAvailable
deriving DecidableEq, Repr, Fintype

/-- The string value of each status, from `src/utils/Constant/enum.js`. -/
def statusStr : MoveStatus → String
  | .pending => "pending"
  | .accepted => "accepted"
  | .arrivedAtPickup => "arrived_at_pickup"
  | .pickedUp => "picked_up"
  | .arrivedAtDelivery => "arrived_at_delivery"
  | .delivered => "delivered"
  | .cancelledByCustomer => "cancelled_by_customer"
  | .cancelledByDriver => "cancelled_by_driver"
  | .cancelledByAdmin => "cancelled_by_admin"
  | .noDriversAvailable => "no_drivers_available"

/-- Driver approval statuses, from `driverStatus` in `src/utils/Constant/enum.js`. -/
inductive DriverStatus where
  | pending
  | accepted
  | rejected
  | suspended
deriving DecidableEq, Repr, Fintype

/-- Vehicle classes, from `vehicleType` in `src/utils/Constant/enum.js`. -/
inductive VehicleType where
  | bike
  | car
  | van
  | truck
deriving DecidableEq, Repr, Fintype

/-- Actor roles, from `roles` in `src/utils/Constant/enum.js`. -/
inductive Role where
  | customer
  | driver
  | admin
  | superAdmin
deriving DecidableEq, Repr, Fintype

/-- The `terminalStates` array used in `initiateNewMove` and
`_isValidStatusTransition` (`src/services/moveRequestService.js`). -/
def terminalStates : List MoveStatus :=
  [.delivered, .cancelledByAdmin, .cancelledByCustomer, .cancelledByDriver,
   .noDriversAvailable]

/-- The `flow` table of `_isValidStatusTransition`
(`src/services/moveRequestService.js`, lines 590-620). -/
def flow : MoveStatus → List MoveStatus
  | .pending =>
      [.accepted, .noDriversAvailable, .cancelledByCustomer, .cancelledByAdmin]
  | .accepted =>
      [.arrivedAtPickup, .cancelledByCustomer, .cancelledByDriver,
       .cancelledByAdmin]
  | .arrivedAtPickup =>
      [.pickedUp, .cancelledByCustomer, .cancelledByDriver, .cancelledByAdmin]
  | .pickedUp =>
      [.arrivedAtDelivery, .cancelledByCustomer, .cancelledByDriver,
       .cancelledByAdmin]
  | .arrivedAtDelivery => [.delivered, .cancelledByAdmin]
  | _ => []

/-- `_isValidStatusTransition(currentStatus, newStatus)`
(`src/services/moveRequestService.js`, lines 590-637): transitions out of a
terminal state are refused, otherwise the `flow` table decides. -/
def isValidStatusTransition (cur new : MoveStatus) : Bool :=
  if cur ∈ terminalStates then false
  else decide (new ∈ flow cur)

/-- Modelled from the spec: the legal-transition table of spec §4.3,
transcribed from the spec's own words (to be compared with the
`isValidStatusTransition` function taken from the source). -/
def specLegalTransition (s t : MoveStatus) : Bool :=
  match s with
  | .pending =>
      decide (t ∈ [MoveStatus.accepted, .noDriversAvailable,
        .cancelledByCustomer, .cancelledByAdmin])
  | .accepted =>
      decide (t ∈ [MoveStatus.arrivedAtPickup, .cancelledByCustomer,
        .cancelledByDriver, .cancelledByAdmin])
  | .arrivedAtPickup =>
      decide (t ∈ [MoveStatus.pickedUp, .cancelledByCustomer,
        .cancelledByDriver, .cancelledByAdmin])
  | .pickedUp =>
      decide (t ∈ [MoveStatus.arrivedAtDelivery, .cancelledByCustomer,
        .cancelledByDriver, .cancelledByAdmin])
  | .arrivedAtDelivery =>
      decide (t ∈ [MoveStatus.delivered, .cancelledByAdmin])
  | _ => false

/-- A move document, the dispatch-relevant fields of the `Move` schema
(`src/models/moveModel.js`) as used by `moveRequestService.js`.  Coordinates
are opaque tokens (`Nat`); `paymentMethod` keeps the raw string compared
against `'CASH'` / `'VISA'` in `updateMoveProgress`. -/
structure Move where
  id : Nat
  customer : Nat
  driver : Option Nat
  status : MoveStatus
  vehicleType : VehicleType
  paymentMethod : Option String
  paymentStatus : String
  cancellationReason : Option String
  cancelledAt : Option Nat
  pickupCoords : Nat
  deliveryCoords : Nat
deriving DecidableEq, Repr

/-- A driver document, the dispatch-relevant fields of the `Driver` schema
(`src/models/driverModel.js`): `user` link, `vehicle.type`, `isAvailable`,
admin approval `status`, `currentLocation`. -/
structure Driver where
  id : Nat
  user : Nat
  isAvailable : Bool
  status : DriverStatus
  vehicleType : VehicleType
  currentLocation : Nat
deriving DecidableEq, Repr

/-- A candidate entry as returned by `googleMapsService.getNearbyDrivers`
(`src/services/googleMapsService.js`, lines 102-110): its only identity
field is `driverId := driver.user._id` — a USER id, despite the name — and
there is no `driverUserId` key, so the `driverToNotify.driverUserId` reads
in `moveRequestService.js` yield `undefined`. -/
structure Candidate where
  driverId : Nat
deriving DecidableEq, Repr

/-- One entry of the in-process `pendingDriverNotifications` map
(`src/services/moveRequestService.js`): the attempt counter, the currently
solicited candidate and the exclusion set.  `currentDriverId` holds the geo
candidate's `driverId` (in fact a user id, see `Candidate`);
`currentDriverUserId` is an `Option Nat` because the source stores
`driverToNotify.driverUserId`, a property `getNearbyDrivers` never supplies:
every entry the engine creates holds `undefined` (`none`) there.  The
`timeoutId` handle is not modelled (see the module header). -/
structure NotifState where
  attempt : Nat
  currentDriverId : Nat
  currentDriverUserId : Option Nat
  excludedDriverIds : List Nat
deriving DecidableEq, Repr

/-- A socket notification emitted through `trackingService.notifyCustomer` /
`trackingService.notifyDriver`, tagged by event name.  The offer
notification's target is an `Option Nat`: the source emits it to
`driverToNotify.driverUserId`, which is `undefined` (`none`), i.e. to a room
no driver ever joins. -/
inductive Notif where
  | driverOffer (userId : Option Nat) (moveId : Nat)
  | customerNoDrivers (userId moveId : Nat)
  | customerAccepted (userId moveId : Nat)
  | driverAcceptedConfirm (userId moveId : Nat)
  | driverAcceptFailed (userId moveId : Nat)
  | customerStatusUpdate (userId moveId : Nat) (s : MoveStatus)
  | driverCompleted (userId moveId : Nat)
  | customerPaymentCompleted (userId moveId : Nat)
  | customerPaymentRequired (userId moveId : Nat)
  | customerCancelled (userId moveId : Nat)
  | driverCancelled (userId moveId : Nat)
deriving DecidableEq, Repr

/-- The whole observable state: the `Move` collection, the `Driver`
collection, and the in-process `pendingDriverNotifications` map (as an
association list keyed by move id). -/
structure SysState where
  moves : List Move
  drivers : List Driver
  pending : List (Nat × NotifState)
deriving DecidableEq, Repr

/-- Result of one service call: successor state, notifications emitted in
order, and `some code` when the call threw an `ApiError` with that HTTP
status code. -/
structure OpResult where
  state : SysState
  notifs : List Notif
  err : Option Nat
deriving DecidableEq, Repr

/-- `Move.findById` on the modelled collection. -/
def findMove (st : SysState) (mid : Nat) : Option Move :=
  st.moves.find? (fun m => m.id = mid)

/-- `Driver.findOne({ user: userId })` on the modelled collection. -/
def findDriverByUser (st : SysState) (uid : Nat) : Option Driver :=
  st.drivers.find? (fun d => d.user = uid)

/-- `Driver.findById` on the modelled collection. -/
def findDriverById (st : SysState) (did : Nat) : Option Driver :=
  st.drivers.find? (fun d => d.id = did)

/-- Persisting a modified move document (`move.save({ session })`): the
document with the given id is replaced by `f` applied to it. -/
def updateMove (st : SysState) (mid : Nat) (f : Move → Move) : SysState :=
  { st with moves := st.moves.map (fun m => if m.id = mid then f m else m) }

/-- Persisting a modified driver document (`driver.save` /
`Driver.findByIdAndUpdate`). -/
def updateDriver (st : SysState) (did : Nat) (f : Driver → Driver) : SysState :=
  { st with drivers := st.drivers.map (fun d => if d.id = did then f d else d) }

/-- `this.pendingDriverNotifications.get(moveId)`. -/
def pendingGet (st : SysState) (mid : Nat) : Option NotifState :=
  (st.pending.find? (fun p => p.fst = mid)).map Prod.snd

/-- `this.pendingDriverNotifications.set(moveId, state)`. -/
def pendingSet (st : SysState) (mid : Nat) (ns : NotifState) : SysState :=
  { st with pending := (mid, ns) :: st.pending.filter (fun p => ¬ p.fst = mid) }

/-- `this.pendingDriverNotifications.delete(moveId)`. -/
def pendingDelete (st : SysState) (mid : Nat) : SysState :=
  { st with pending := st.pending.filter (fun p => ¬ p.fst = mid) }

/-- `MAX_DRIVER_SEARCH_ATTEMPTS` (`src/services/moveRequestService.js`, line 12). -/
def MAX_DRIVER_SEARCH_ATTEMPTS : Nat := 3

/-- A successful result of `googleMapsService.calculateRoute`. -/
structure Route where
  distance : Nat
  duration : Nat
deriving DecidableEq, Repr

/-- The `status` enum of the `Move` schema
(`src/models/moveModel.js`, lines 13-17). -/
def moveSchemaStatusEnum : List String :=
  ["pending", "accepted", "picked_up", "in_transit", "delivered", "cancelled"]

/-- The mongoose enum validator of `moveSchema.status`: a string value passes
validation exactly when it is listed in the schema enum. -/
def validatesMoveStatus (s : String) : Bool :=
  moveSchemaStatusEnum.contains s

/-- `document.save()` through the `Move` schema: mongoose runs the schema
validators, so a document whose status string is outside the schema enum is
rejected with a `ValidationError` (`none`) and nothing is persisted;
otherwise the document is stored unchanged. -/
def saveMoveDoc (m : Move) : Option Move :=
  if validatesMoveStatus (statusStr m.status) then some m else none

/-- A status write followed by `move.save({ session })`: the save runs the
schema validators, so a status whose string is outside the `Move` schema
enum throws a `ValidationError` (`none`) and nothing is persisted; otherwise
the updated document is stored. -/
def saveMoveStatus (st : SysState) (mid : Nat) (s : MoveStatus) :
    Option SysState :=
  if validatesMoveStatus (statusStr s) then
    some (updateMove st mid (fun m => { m with status := s }))
  else none

/-- `acceptMoveRequest(moveId, driverUserId)`
(`src/services/moveRequestService.js`, lines 237-382).

The transaction checks (in source order): move exists, `status === PENDING`,
no driver assigned, driver document for this user exists,
`driver.isAvailable && driver.status === "accepted"`, vehicle type matches;
then assigns the driver, sets the move `ACCEPTED`, sets
`driver.isAvailable = false` and commits.  After the commit the pending
notification entry is deleted (with its timer cleared) and the ETA section
runs: when `routeRes` is `some`, the customer match notification and the
driver confirmation are emitted and the call resolves; when `routeRes` is
`none` (route unavailable), building the customer payload dereferences
`route.distance` on `undefined`, so the customer notification is never sent,
the catch block notifies the driver of an acceptance failure and the call
rejects with a wrapped 500 error — the committed transaction effects persist.
Every error path also emits the catch block's `move:acceptance_failed`
notification to the driver. -/
def acceptMoveRequest (st : SysState) (moveId driverUserId : Nat)
    (routeRes : Option Route) : OpResult :=
  match findMove st moveId with
  | none => ⟨st, [.driverAcceptFailed driverUserId moveId], some 404⟩
  | some mv =>
    if mv.status ≠ MoveStatus.pending then
      ⟨st, [.driverAcceptFailed driverUserId moveId], some 409⟩
    else if mv.driver ≠ none then
      ⟨st, [.driverAcceptFailed driverUserId moveId], some 409⟩
    else
      match findDriverByUser st driverUserId with
      | none => ⟨st, [.driverAcceptFailed driverUserId moveId], some 404⟩
      | some d =>
        if ¬ (d.isAvailable = true ∧ d.status = DriverStatus.accepted) then
          ⟨st, [.driverAcceptFailed driverUserId moveId], some 400⟩
        else if d.vehicleType ≠ mv.vehicleType then
          ⟨st, [.driverAcceptFailed driverUserId moveId], some 400⟩
        else
          let st1 := updateMove st moveId
            (fun m => { m with driver := some d.id, status := MoveStatus.accepted })
          let st2 := updateDriver st1 d.id (fun dr => { dr with isAvailable := false })
          let st3 := pendingDelete st2 moveId
          match routeRes with
          | some _ =>
              ⟨st3, [.customerAccepted mv.customer moveId,
                     .driverAcceptedConfirm d.user moveId], none⟩
          | none =>
              ⟨st3, [.driverAcceptFailed driverUserId moveId], some 500⟩

/-- `updateMoveProgress(moveId, driverUserId, newStatus)`
(`src/services/moveRequestService.js`, lines 476-588).

The move is fetched with `.populate({ path: "driver", ... })`; the `Move`
schema declares `driver` with `ref: 'user'` while `acceptMoveRequest` stores
Driver-document ids there, so the populate finds no user document and
`move.driver` is `null` after it (see the module header and `driverUserOf`).
The authorization guard
`if (!move.driver || move.driver.user._id.toString() !== driverUserId.toString())`
(line 497) therefore throws a 403 for every caller — including the genuinely
assigned driver — before the `DELIVERED` check, the transition validation,
any save, the payment branch or `_finalizeMoveCompletion` is reached (and
the `arrived_at_*` saves would fail the schema status enum anyway).  The
only outcomes are 404 (move missing) and 403, both aborting the transaction
with the state unchanged and nothing notified. -/
def updateMoveProgress (st : SysState) (moveId driverUserId : Nat)
    (newStatus : MoveStatus) : OpResult :=
  match findMove st moveId with
  | none => ⟨st, [], some 404⟩
  | some _ => ⟨st, [], some 403⟩

/-- The `move.driver.user._id` value available after `populate("driver", …)`
in `cancelMoveRequest`: the `Move` schema's `driver` field has `ref: 'user'`,
so mongoose resolves the stored id against the `user` collection; the engine
stores Driver-document ids there, which identify no user document, so the
populated value — and with it this user id — is always `null`. -/
def driverUserOf (st : SysState) (mv : Move) : Option Nat := none

/-- The `canCancel` / `newStatus` chain of `cancelMoveRequest`
(`src/services/moveRequestService.js`, lines 802-829): `some s` when the
actor may cancel, with `s` the actor-specific cancelled status; `none` when
the 403 is thrown.  The admin branch carries no status restriction in the
source, and the driver branch compares against the populated
`move.driver.user._id` (`driverUserOf`), which is always `null`, so it can
never fire: the chain only ever produces `CANCELLED_BY_CUSTOMER`,
`CANCELLED_BY_ADMIN`, or `none`. -/
def cancelNewStatus (st : SysState) (mv : Move) (userId : Nat)
    (role : Role) : Option MoveStatus :=
  if role = Role.customer ∧ mv.customer = userId then
    (if mv.status = MoveStatus.pending ∨ mv.status = MoveStatus.accepted then
      some MoveStatus.cancelledByCustomer
     else none)
  else if role = Role.driver ∧ driverUserOf st mv = some userId then
    (if mv.status = MoveStatus.accepted ∨
        mv.status = MoveStatus.arrivedAtPickup then
      some MoveStatus.cancelledByDriver
     else none)
  else if role = Role.admin then some MoveStatus.cancelledByAdmin
  else none

/-- `cancelMoveRequest(moveId, userId, userRole, reason)`
(`src/services/moveRequestService.js`, lines 784-912).

`canCancel` is `cancelNewStatus`; on `none` the 403 aborts the transaction
with the state unchanged.  When an actor IS authorized, the source mutates
the session documents and calls `move.save({ session })` (line 864) — but
every status the chain can actually produce (`cancelled_by_customer`,
`cancelled_by_admin`) lies outside the `Move` schema's status enum, so the
save throws a `ValidationError`; the catch (lines 904-911) aborts the
transaction — rolling back the status, reason, timestamp and any driver
release — and rethrows wrapped as a 500, and the notification block (lines
866-899) is never reached.  The valid-status branch is kept for structure:
even there the driver-release updates (lines 842-862) are omitted because
they test the populated `move.driver`, which is `null` (`driverUserOf`),
and the driver notification addressed through it cannot be sent for the
same reason. -/
def cancelMoveRequest (st : SysState) (moveId userId : Nat) (role : Role)
    (reason : String) (now : Nat) : OpResult :=
  match findMove st moveId with
  | none => ⟨st, [], some 404⟩
  | some mv =>
    match cancelNewStatus st mv userId role with
    | none => ⟨st, [], some 403⟩
    | some newStatus =>
      if validatesMoveStatus (statusStr newStatus) then
        ⟨updateMove st moveId
          (fun m => { m with status := newStatus,
                             cancellationReason := some reason,
                             cancelledAt := some now }),
         (if newStatus = MoveStatus.cancelledByCustomer then []
          else [Notif.customerCancelled mv.customer moveId]),
         none⟩
      else ⟨st, [], some 500⟩

/-- `_findAndNotifyDrivers(move, session, attempt, excludedDriverIds)`
(`src/services/moveRequestService.js`, lines 119-204).

`cands = none` models `getNearbyDrivers` throwing: the transaction aborts
and the error propagates (no state change, no notification).  With no
candidate outside `excludedDriverIds` on the first attempt, the source
writes `NO_DRIVERS_AVAILABLE` and saves (lines 131-134) — a status outside
the `Move` schema enum, so the save throws a `ValidationError` and the
function's catch (lines 197-203) aborts the transaction and rethrows:
observably the same abort-and-propagate as a geo failure, the customer
never notified.  With a candidate, the first-attempt `PENDING` save (lines
149-152) passes the enum and commits; the recorded entry literally has
`attempt: 1`, `currentDriverUserId := driverToNotify.driverUserId` — which
is `undefined` (`none`), since `getNearbyDrivers` supplies no such field —
and `excludedDriverIds: [driverToNotify.driverId]` (lines 158-164), and the
single "new move offer" notification (lines 175-186) is emitted to that
same `undefined` user room. -/
def findAndNotifyDrivers (st : SysState) (mv : Move)
    (cands : Option (List Candidate)) (attempt : Nat)
    (excludedDriverIds : List Nat) : OpResult :=
  match cands with
  | none => ⟨st, [], some 500⟩
  | some allNearby =>
    match allNearby.filter (fun c => decide (c.driverId ∉ excludedDriverIds)) with
    | [] =>
      if attempt = 1 then
        match saveMoveStatus st mv.id MoveStatus.noDriversAvailable with
        | some st1 => ⟨st1, [.customerNoDrivers mv.customer mv.id], none⟩
        | none => ⟨st, [], some 500⟩
      else ⟨st, [], none⟩
    | c :: _ =>
      match (if attempt = 1 then saveMoveStatus st mv.id MoveStatus.pending
             else some st) with
      | none => ⟨st, [], some 500⟩
      | some st1 =>
        ⟨pendingSet st1 mv.id ⟨1, c.driverId, none, [c.driverId]⟩,
         [.driverOffer none mv.id], none⟩

/-- `handleDriverRejection(moveId, driverUserId, reason)`
(`src/services/moveRequestService.js`, lines 384-474).

No pending entry → no-op (line 389).  Otherwise the guard
`notificationState.currentDriverUserId.toString() !== driverUserId.toString()`
(line 395) runs: `currentDriverUserId` is `undefined` (`none`) in every
entry the engine creates (see `NotifState`), so the dereference throws a
`TypeError`, and the outer catch (lines 468-473) absorbs it and deletes the
pending entry — nothing else changes and no notification is sent.  The
remaining branches are reachable only from entries the engine never creates
and are kept for structure: a defined-but-different caller is ignored; a
`none` caller id (a timeout delegating a stored `undefined`) throws at
`driverUserId.toString()` with the same delete-entry outcome; past the
guard, the stale-move branches delete the entry, the `attempt >= MAX` and
exhausted-pool branches attempt the `NO_DRIVERS_AVAILABLE` save — which
fails the schema enum, so the catch again deletes the entry — and the
continue branch records the next candidate (again with an `undefined`
`currentDriverUserId`) and emits the offer to the `undefined` room.  The
method itself always resolves (`err = none`): errors are swallowed by its
catch. -/
def handleDriverRejection (st : SysState) (moveId : Nat)
    (driverUserId : Option Nat) (cands : Option (List Candidate)) : OpResult :=
  match pendingGet st moveId with
  | none => ⟨st, [], none⟩
  | some ns =>
    match ns.currentDriverUserId, driverUserId with
    | none, _ => ⟨pendingDelete st moveId, [], none⟩
    | some _, none => ⟨pendingDelete st moveId, [], none⟩
    | some cu, some u =>
      if cu ≠ u then ⟨st, [], none⟩
      else
        match findMove st moveId with
        | none => ⟨pendingDelete st moveId, [], none⟩
        | some mv =>
          if mv.status ≠ MoveStatus.pending then
            ⟨pendingDelete st moveId, [], none⟩
          else if ns.attempt ≥ MAX_DRIVER_SEARCH_ATTEMPTS then
            match saveMoveStatus st moveId MoveStatus.noDriversAvailable with
            | some st1 =>
              ⟨pendingDelete st1 moveId,
               [.customerNoDrivers mv.customer moveId], none⟩
            | none => ⟨pendingDelete st moveId, [], none⟩
          else
            match cands with
            | none => ⟨pendingDelete st moveId, [], none⟩
            | some allNearby =>
              match allNearby.find?
                  (fun c => decide (c.driverId ∉ ns.excludedDriverIds)) with
              | some c =>
                ⟨pendingSet st moveId
                   ⟨ns.attempt + 1, c.driverId, none,
                    ns.excludedDriverIds ++ [c.driverId]⟩,
                 [.driverOffer none moveId], none⟩
              | none =>
                match saveMoveStatus st moveId MoveStatus.noDriversAvailable with
                | some st1 =>
                  ⟨pendingDelete st1 moveId,
                   [.customerNoDrivers mv.customer moveId], none⟩
                | none => ⟨pendingDelete st moveId, [], none⟩

/-- `handleDriverResponseTimeout(moveId)`
(`src/services/moveRequestService.js`, lines 206-235): with no pending entry
the late timer is a no-op; otherwise it delegates the entry's
`currentDriverUserId` — always `undefined` for entries the engine creates —
into `handleDriverRejection`, which then throws at its guard and deletes
the entry. -/
def handleDriverResponseTimeout (st : SysState) (moveId : Nat)
    (cands : Option (List Candidate)) : OpResult :=
  match pendingGet st moveId with
  | none => ⟨st, [], none⟩
  | some ns => handleDriverRejection st moveId ns.currentDriverUserId cands

/-! ## Invariants -/

/-- Spec §3: a driver with `availability = true` must not be the assigned
driver of any non-terminal move. -/
def availInv (st : SysState) : Prop :=
  ∀ d ∈ st.drivers, d.isAvailable = true →
    ∀ m ∈ st.moves, m.driver = some d.id → m.status ∈ terminalStates

instance (st : SysState) : Decidable (availInv st) := by
  unfold availInv
  infer_instance

/-! ## Helper lemmas -/

theorem find?_map_comm {α : Type} (l : List α) (g : α → α) (p : α → Bool)
    (h : ∀ x, p (g x) = p x) : (l.map g).find? p = (l.find? p).map g := by
  induction l with
  | nil => rfl
  | cons a t ih =>
    simp only [List.map_cons, List.find?]
    rw [h a]
    cases p a <;> simp [ih]

theorem findMove_updateMove (st : SysState) (mid : Nat) (f : Move → Move)
    (hf : ∀ m, (f m).id = m.id) :
    findMove (updateMove st mid f) mid = (findMove st mid).map f := by
  unfold findMove updateMove
  rw [find?_map_comm]
  · cases hm : st.moves.find? (fun m => m.id = mid) with
    | none => rfl
    | some m =>
      have := List.find?_some hm
      simp only [decide_eq_true_eq] at this
      simp [this]
  · intro m
    by_cases hc : m.id = mid
    · simp [hc, hf m]
    · simp [hc]

theorem findDriverByUser_updateDriver (st : SysState) (uid did : Nat)
    (f : Driver → Driver) (hf : ∀ d, (f d).user = d.user) :
    findDriverByUser (updateDriver st did f) uid =
      (findDriverByUser st uid).map (fun d => if d.id = did then f d else d) := by
  unfold findDriverByUser updateDriver
  rw [find?_map_comm]
  intro d
  by_cases hc : d.id = did
  · simp [hc, hf d]
  · simp [hc]

theorem pendingGet_pendingDelete_self (st : SysState) (mid : Nat) :
    pendingGet (pendingDelete st mid) mid = none := by
  unfold pendingGet pendingDelete
  simp only [Option.map_eq_none']
  rw [List.find?_eq_none]
  intro p hp
  have := (List.mem_filter.mp hp).2
  simpa using this

theorem pendingGet_pendingSet_self (st : SysState) (mid : Nat) (ns : NotifState) :
    pendingGet (pendingSet st mid ns) mid = some ns := by
  unfold pendingGet pendingSet
  simp [List.find?]

/-- `NO_DRIVERS_AVAILABLE` is outside the `Move` schema status enum, so a
save of it always throws. -/
theorem saveMoveStatus_nda (st : SysState) (mid : Nat) :
    saveMoveStatus st mid MoveStatus.noDriversAvailable = none := rfl

/-- `PENDING` is inside the `Move` schema status enum, so a save of it
commits. -/
theorem saveMoveStatus_pending (st : SysState) (mid : Nat) :
    saveMoveStatus st mid MoveStatus.pending =
      some (updateMove st mid
        (fun m => { m with status := MoveStatus.pending })) := rfl

/-- The availability invariant survives the committed effects of a
successful accept: the assigned move's driver is exactly the driver made
unavailable, and every other driver/move pair is untouched. -/
theorem availInv_accept_update (st : SysState) (mid : Nat) (d : Driver)
    (ha : availInv st) :
    availInv (updateDriver (updateMove st mid
        (fun m => { m with driver := some d.id,
                           status := MoveStatus.accepted }))
      d.id (fun dr => { dr with isAvailable := false })) := by
  intro d' hd' hav' m' hm' hassign'
  simp only [updateDriver, updateMove, List.mem_map] at hd' hm'
  obtain ⟨d0, hd0mem, rfl⟩ := hd'
  obtain ⟨m0, hm0mem, rfl⟩ := hm'
  by_cases hdc : d0.id = d.id
  · simp [hdc] at hav'
  · by_cases hc : m0.id = mid
    · exfalso
      have hdd : d.id = d0.id := by
        have := hassign'
        simp [hc, hdc] at this
        exact this
      exact hdc hdd.symm
    · have hassign0 : m0.driver = some d0.id := by
        simpa [hc, hdc] using hassign'
      have hav0 : d0.isAvailable = true := by simpa [hdc] using hav'
      have := ha d0 hd0mem hav0 m0 hm0mem hassign0
      simpa [hc] using this

/-- The preconditions of `acceptMoveRequest` (spec §4.4), read off the chain
of checks in the source: move found and `PENDING` with no driver; driver
document for the user found, available, approved, with matching vehicle
class. -/
def acceptPre (st : SysState) (mid uid : Nat) : Bool :=
  match findMove st mid, findDriverByUser st uid with
  | some mv, some d =>
      decide (mv.status = MoveStatus.pending) && decide (mv.driver = none) &&
      d.isAvailable && decide (d.status = DriverStatus.accepted) &&
      decide (d.vehicleType = mv.vehicleType)
  | _, _ => false

theorem accept_fail (st : SysState) (mid uid : Nat) (r : Option Route)
    (h : acceptPre st mid uid = false) :
    (acceptMoveRequest st mid uid r).state = st ∧
    (acceptMoveRequest st mid uid r).err ≠ none := by
  unfold acceptMoveRequest
  unfold acceptPre at h
  cases hm : findMove st mid with
  | none => exact ⟨rfl, by simp⟩
  | some mv =>
    rw [hm] at h
    dsimp only
    cases hd : findDriverByUser st uid with
    | none =>
      rw [hd] at h
      dsimp only
      by_cases h1 : mv.status ≠ MoveStatus.pending
      · rw [if_pos h1]; exact ⟨rfl, by simp⟩
      · rw [if_neg h1]
        by_cases h2 : mv.driver ≠ none
        · rw [if_pos h2]; exact ⟨rfl, by simp⟩
        · rw [if_neg h2]; exact ⟨rfl, by simp⟩
    | some d =>
      rw [hd] at h
      dsimp only
      simp only [Bool.and_eq_false_iff, decide_eq_false_iff_not] at h
      by_cases h1 : mv.status ≠ MoveStatus.pending
      · rw [if_pos h1]; exact ⟨rfl, by simp⟩
      · rw [if_neg h1]
        by_cases h2 : mv.driver ≠ none
        · rw [if_pos h2]; exact ⟨rfl, by simp⟩
        · rw [if_neg h2]
          rw [not_not] at h1 h2
          by_cases h3 : ¬ (d.isAvailable = true ∧ d.status = DriverStatus.accepted)
          · rw [if_pos h3]; exact ⟨rfl, by simp⟩
          · rw [if_neg h3]
            rw [not_not] at h3
            by_cases h4 : d.vehicleType ≠ mv.vehicleType
            · rw [if_pos h4]; exact ⟨rfl, by simp⟩
            · exfalso
              rw [not_not] at h4
              rcases h with ((((hx | hx) | hx) | hx) | hx)
              · exact hx h1
              · exact hx h2
              · rw [h3.1] at hx; exact Bool.false_ne_true hx.symm
              · exact hx h3.2
              · exact hx h4

theorem accept_succ (st : SysState) (mid uid : Nat) (r : Option Route)
    (mv : Move) (d : Driver)
    (hm : findMove st mid = some mv) (hd : findDriverByUser st uid = some d)
    (h : acceptPre st mid uid = true) :
    mv.status = MoveStatus.pending ∧ mv.driver = none ∧
    d.isAvailable = true ∧ d.status = DriverStatus.accepted ∧
    d.vehicleType = mv.vehicleType ∧
    (acceptMoveRequest st mid uid r).state =
      pendingDelete (updateDriver (updateMove st mid
          (fun m => { m with driver := some d.id, status := MoveStatus.accepted }))
        d.id (fun dr => { dr with isAvailable := false })) mid ∧
    (acceptMoveRequest st mid uid r).err = (if r.isSome then none else some 500) ∧
    (acceptMoveRequest st mid uid r).notifs =
      (if r.isSome then
        [Notif.customerAccepted mv.customer mid, .driverAcceptedConfirm d.user mid]
       else [Notif.driverAcceptFailed uid mid]) := by
  unfold acceptPre at h
  rw [hm, hd] at h
  simp only [Bool.and_eq_true, decide_eq_true_eq] at h
  obtain ⟨⟨⟨⟨h1, h2⟩, h3⟩, h4⟩, h5⟩ := h
  refine ⟨h1, h2, h3, h4, h5, ?_, ?_, ?_⟩ <;>
  · unfold acceptMoveRequest
    rw [hm]
    dsimp only
    rw [if_neg (by simpa using h1), if_neg (by simpa using h2), hd]
    dsimp only
    rw [if_neg (by simp [h3, h4]), if_neg (by simpa using h5)]
    cases r <;> rfl

theorem acceptPre_true_elim (st : SysState) (mid uid : Nat)
    (h : acceptPre st mid uid = true) :
    ∃ mv d, findMove st mid = some mv ∧ findDriverByUser st uid = some d := by
  unfold acceptPre at h
  cases hm : findMove st mid with
  | none => rw [hm] at h; cases hd : findDriverByUser st uid <;> simp [hd] at h
  | some mv =>
    cases hd : findDriverByUser st uid with
    | none => rw [hm, hd] at h; simp at h
    | some d => exact ⟨mv, d, rfl, rfl⟩

/-- The `canCancel` chain produces only the customer and admin variants:
the driver branch tests the populated `move.driver`, which is always
`null`. -/
theorem cancelNewStatus_cases (st : SysState) (mv : Move) (uid : Nat)
    (role : Role) (ns : MoveStatus)
    (h : cancelNewStatus st mv uid role = some ns) :
    (role = Role.customer ∧ mv.customer = uid ∧
      (mv.status = MoveStatus.pending ∨ mv.status = MoveStatus.accepted) ∧
      ns = MoveStatus.cancelledByCustomer) ∨
    (role = Role.admin ∧ ns = MoveStatus.cancelledByAdmin) := by
  unfold cancelNewStatus at h
  by_cases hc1 : role = Role.customer ∧ mv.customer = uid
  · rw [if_pos hc1] at h
    by_cases hs : mv.status = MoveStatus.pending ∨ mv.status = MoveStatus.accepted
    · rw [if_pos hs] at h
      exact Or.inl ⟨hc1.1, hc1.2, hs, (Option.some_injective _ h).symm⟩
    · rw [if_neg hs] at h
      exact absurd h (by simp)
  · rw [if_neg hc1] at h
    by_cases hc2 : role = Role.driver ∧ driverUserOf st mv = some uid
    · exact absurd hc2.2 (by simp [driverUserOf])
    · rw [if_neg hc2] at h
      by_cases hc3 : role = Role.admin
      · rw [if_pos hc3] at h
        exact Or.inr ⟨hc3, (Option.some_injective _ h).symm⟩
      · rw [if_neg hc3] at h
        exact absurd h (by simp)

/-- Every status the `canCancel` chain can produce fails the `Move` schema
status enum. -/
theorem cancelNewStatus_invalid (st : SysState) (mv : Move) (uid : Nat)
    (role : Role) (ns : MoveStatus)
    (h : cancelNewStatus st mv uid role = some ns) :
    validatesMoveStatus (statusStr ns) = false := by
  rcases cancelNewStatus_cases st mv uid role ns h with ⟨_, _, _, hns⟩ | ⟨_, hns⟩ <;>
    rw [hns] <;> rfl

/-- The `canCancel` chain authorizes the owning customer of a
`PENDING`/`ACCEPTED` move and any admin. -/
theorem cancelNewStatus_some_of (st : SysState) (mv : Move) (uid : Nat)
    (role : Role)
    (h : (role = Role.customer ∧ mv.customer = uid ∧
        (mv.status = MoveStatus.pending ∨ mv.status = MoveStatus.accepted)) ∨
      role = Role.admin) :
    (cancelNewStatus st mv uid role).isSome = true := by
  unfold cancelNewStatus
  rcases h with ⟨hr, ho, hs⟩ | hr
  · rw [if_pos ⟨hr, ho⟩, if_pos hs]
    rfl
  · by_cases hc1 : role = Role.customer ∧ mv.customer = uid
    · rw [if_pos hc1, if_pos]
      · rfl
      · rw [hr] at hc1
        exact absurd hc1.1 (by simp)
    · rw [if_neg hc1]
      by_cases hc2 : role = Role.driver ∧ driverUserOf st mv = some uid
      · exact absurd hc2.2 (by simp [driverUserOf])
      · rw [if_neg hc2, if_pos hr]
        rfl

/-- `updateMoveProgress` always aborts: state unchanged, nothing notified,
an error thrown. -/
theorem updateMoveProgress_noop (st : SysState) (mid uid : Nat)
    (ns : MoveStatus) :
    (updateMoveProgress st mid uid ns).state = st ∧
    (updateMoveProgress st mid uid ns).notifs = [] ∧
    (updateMoveProgress st mid uid ns).err ≠ none := by
  unfold updateMoveProgress
  cases findMove st mid <;> exact ⟨rfl, rfl, by simp⟩

/-- `cancelMoveRequest` always aborts: state unchanged, nothing notified,
an error thrown (404, 403 or the wrapped schema-validation 500). -/
theorem cancelMoveRequest_noop (st : SysState) (mid uid : Nat) (role : Role)
    (reason : String) (now : Nat) :
    (cancelMoveRequest st mid uid role reason now).state = st ∧
    (cancelMoveRequest st mid uid role reason now).notifs = [] ∧
    (cancelMoveRequest st mid uid role reason now).err ≠ none := by
  unfold cancelMoveRequest
  cases hm : findMove st mid with
  | none => exact ⟨rfl, rfl, by simp⟩
  | some mv =>
    dsimp only
    cases hns : cancelNewStatus st mv uid role with
    | none => exact ⟨rfl, rfl, by simp⟩
    | some n =>
      dsimp only
      have hinv := cancelNewStatus_invalid st mv uid role n hns
      rw [if_neg (by simp [hinv])]
      exact ⟨rfl, rfl, by simp⟩

/-- Any decline (or delegated timeout) against an entry whose
`currentDriverUserId` is `undefined` — i.e. every entry the engine creates —
throws at the guard and only deletes the entry. -/
theorem rejection_deletes_entry (st : SysState) (mid : Nat)
    (duid : Option Nat) (cands : Option (List Candidate)) (ns : NotifState)
    (hpg : pendingGet st mid = some ns)
    (hcu : ns.currentDriverUserId = none) :
    handleDriverRejection st mid duid cands =
      OpResult.mk (pendingDelete st mid) [] none := by
  unfold handleDriverRejection
  rw [hpg]
  dsimp only
  rw [hcu]

/-- `handleDriverRejection` never changes the `Move` collection: every
branch that would write a status (`NO_DRIVERS_AVAILABLE`) fails the schema
enum and falls to the entry-deleting catch. -/
theorem rejection_moves_unchanged (st : SysState) (mid : Nat)
    (duid : Option Nat) (cands : Option (List Candidate)) :
    (handleDriverRejection st mid duid cands).state.moves = st.moves := by
  unfold handleDriverRejection
  cases hpg : pendingGet st mid with
  | none => rfl
  | some ns =>
    dsimp only
    cases hcu : ns.currentDriverUserId with
    | none => rfl
    | some cu =>
      try dsimp only
      cases duid with
      | none => rfl
      | some u =>
        try dsimp only
        by_cases hne : cu ≠ u
        · rw [if_pos hne]
        · rw [if_neg hne]
          cases hm : findMove st mid with
          | none => rfl
          | some mv =>
            dsimp only
            by_cases hst : mv.status ≠ MoveStatus.pending
            · rw [if_pos hst]
              rfl
            · rw [if_neg hst]
              by_cases hat : ns.attempt ≥ MAX_DRIVER_SEARCH_ATTEMPTS
              · rw [if_pos hat, saveMoveStatus_nda]
                rfl
              · rw [if_neg hat]
                cases cands with
                | none => rfl
                | some allNearby =>
                  dsimp only
                  cases allNearby.find?
                      (fun c => decide (c.driverId ∉ ns.excludedDriverIds)) with
                  | none =>
                    rw [saveMoveStatus_nda]
                    rfl
                  | some c => rfl

/-! ## The claims -/

/-- C5: every move status that a schema-validated save can persist is one of
the six values of the `Move` schema's status enum, and a save of a move
whose status is any of the engine's other lifecycle values
(`arrived_at_pickup`, `arrived_at_delivery`, `no_drivers_available`,
`cancelled_by_customer`, `cancelled_by_driver`, `cancelled_by_admin`) fails
schema validation, so such a transition never commits. -/
theorem claim_C5_schema_status_enum :
    (∀ m m' : Move, saveMoveDoc m = some m' →
      statusStr m'.status ∈ moveSchemaStatusEnum) ∧
    (∀ m : Move,
      m.status ∈ [MoveStatus.arrivedAtPickup, .arrivedAtDelivery,
        .noDriversAvailable, .cancelledByCustomer, .cancelledByDriver,
        .cancelledByAdmin] → saveMoveDoc m = none) := by
  constructor
  · intro m m' h
    unfold saveMoveDoc at h
    by_cases hv : validatesMoveStatus (statusStr m.status) = true
    · rw [if_pos hv] at h
      cases h
      unfold validatesMoveStatus at hv
      simpa using hv
    · rw [if_neg hv] at h
      exact absurd h (by simp)
  · intro m hmem
    unfold saveMoveDoc
    simp only [List.mem_cons, List.not_mem_nil, or_false] at hmem
    rcases hmem with h | h | h | h | h | h <;>
      simp [validatesMoveStatus, moveSchemaStatusEnum, statusStr, h]

/-- Witness for C5: a `PENDING` save passes the schema enum, a save with the
engine status `ARRIVED_AT_PICKUP` is rejected by schema validation. -/
theorem claim_C5_schema_status_enum_witness :
    statusStr
      (Move.mk 1 2 none MoveStatus.pending VehicleType.car none "pending"
        none none 0 0).status ∈ moveSchemaStatusEnum ∧
    saveMoveDoc
      (Move.mk 1 2 none MoveStatus.arrivedAtPickup VehicleType.car none
        "pending" none none 0 0) = none :=
  ⟨claim_C5_schema_status_enum.1
     (Move.mk 1 2 none MoveStatus.pending VehicleType.car none "pending"
       none none 0 0)
     (Move.mk 1 2 none MoveStatus.pending VehicleType.car none "pending"
       none none 0 0) (by decide),
   claim_C5_schema_status_enum.2
     (Move.mk 1 2 none MoveStatus.arrivedAtPickup VehicleType.car none
       "pending" none none 0 0) (by decide)⟩

/-- C3: `acceptMove(moveId, driverUserId)` succeeds exactly when the move
exists with status `PENDING` and no driver assigned, and the driver exists
with `availability = true`, admin-approved status, and vehicle class equal
to the move's requested class (`acceptPre`); on success — in one atomic
step of the model — the move gains this driver and becomes `ACCEPTED`, the
driver's availability becomes `false`, and the pending solicitation entry is
cleared (its timer with it); when any precondition fails, no mutation of the
move or driver records persists.  The committed effects are independent of
the route argument; the success/error cut of the returned promise is stated
for a succeeding route computation — the route-failure case is recorded
separately (C8), and even there the committed effects are the same. -/
theorem claim_C3_accept_iff :
    ∀ st mid uid r,
      ((acceptMoveRequest st mid uid (some r)).err = none ↔
        acceptPre st mid uid = true) ∧
      (∀ rr mv d, findMove st mid = some mv →
        findDriverByUser st uid = some d → acceptPre st mid uid = true →
        findMove (acceptMoveRequest st mid uid rr).state mid =
          some { mv with driver := some d.id,
                         status := MoveStatus.accepted } ∧
        findDriverByUser (acceptMoveRequest st mid uid rr).state uid =
          some { d with isAvailable := false } ∧
        pendingGet (acceptMoveRequest st mid uid rr).state mid = none) ∧
      (∀ rr, acceptPre st mid uid = false →
        (acceptMoveRequest st mid uid rr).state = st ∧
        (acceptMoveRequest st mid uid rr).err ≠ none) := by
  intro st mid uid r
  refine ⟨⟨?_, ?_⟩, ?_, ?_⟩
  · intro herr
    by_cases hpre : acceptPre st mid uid = true
    · exact hpre
    · have := accept_fail st mid uid (some r) (by simpa using hpre)
      exact absurd herr this.2
  · intro hpre
    obtain ⟨mv, d, hm, hd⟩ := acceptPre_true_elim st mid uid hpre
    have hs := accept_succ st mid uid (some r) mv d hm hd hpre
    rw [hs.2.2.2.2.2.2.1]
    simp
  · intro rr mv d hm hd hpre
    have hs := accept_succ st mid uid rr mv d hm hd hpre
    rw [hs.2.2.2.2.2.1]
    refine ⟨?_, ?_, pendingGet_pendingDelete_self _ mid⟩
    · have hstep : findMove (pendingDelete (updateDriver (updateMove st mid
          (fun m => { m with driver := some d.id,
                             status := MoveStatus.accepted })) d.id
          (fun dr => { dr with isAvailable := false })) mid) mid =
          findMove (updateMove st mid
            (fun m => { m with driver := some d.id,
                               status := MoveStatus.accepted })) mid := rfl
      rw [hstep, findMove_updateMove st mid _ (by simp), hm]
      rfl
    · have hstep : findDriverByUser (pendingDelete (updateDriver
          (updateMove st mid
            (fun m => { m with driver := some d.id,
                               status := MoveStatus.accepted })) d.id
          (fun dr => { dr with isAvailable := false })) mid) uid =
          findDriverByUser (updateDriver (updateMove st mid
            (fun m => { m with driver := some d.id,
                               status := MoveStatus.accepted })) d.id
            (fun dr => { dr with isAvailable := false })) uid := rfl
      rw [hstep, findDriverByUser_updateDriver _ uid d.id _ (by simp)]
      have hstep2 : findDriverByUser (updateMove st mid
          (fun m => { m with driver := some d.id,
                             status := MoveStatus.accepted })) uid =
          findDriverByUser st uid := rfl
      rw [hstep2, hd]
      simp
  · intro rr hpre
    exact accept_fail st mid uid rr hpre

/-- State fixture for the C3 witness: a `PENDING` move and an available,
approved, vehicle-matching driver. -/
def wC3St : SysState :=
  ⟨[Move.mk 1 100 none MoveStatus.pending VehicleType.car none "pending"
      none none 0 5],
   [Driver.mk 1 10 true DriverStatus.accepted VehicleType.car 0], []⟩

/-- Witness for C3: the accept succeeds and commits the assignment, the
driver's availability drop, and the solicitation cleanup. -/
theorem claim_C3_accept_iff_witness :
    ((acceptMoveRequest wC3St 1 10 (some (Route.mk 5 7))).err = none ↔
      acceptPre wC3St 1 10 = true) ∧
    findMove (acceptMoveRequest wC3St 1 10 (some (Route.mk 5 7))).state 1 =
      some (Move.mk 1 100 (some 1) MoveStatus.accepted VehicleType.car none
        "pending" none none 0 5) ∧
    findDriverByUser
        (acceptMoveRequest wC3St 1 10 (some (Route.mk 5 7))).state 10 =
      some (Driver.mk 1 10 false DriverStatus.accepted VehicleType.car 0) ∧
    pendingGet (acceptMoveRequest wC3St 1 10 (some (Route.mk 5 7))).state 1 =
      none :=
  ⟨(claim_C3_accept_iff wC3St 1 10 (Route.mk 5 7)).1,
   (claim_C3_accept_iff wC3St 1 10 (Route.mk 5 7)).2.1
     (some (Route.mk 5 7))
     (Move.mk 1 100 none MoveStatus.pending VehicleType.car none "pending"
       none none 0 5)
     (Driver.mk 1 10 true DriverStatus.accepted VehicleType.car 0)
     (by decide) (by decide) (by decide)⟩

/-- C9 (amended): `acceptMoveRequest` never consults the pending
solicitation entry when deciding whether an accept is allowed: whenever the
eligibility preconditions (`acceptPre`) hold, the accept succeeds and
assigns the accepting driver even if the live solicitation round targets a
different candidate.  (The claim as stated — that a driver other than the
current candidate is not assigned — is refuted by
`claim_C9_counterexample`.) -/
theorem claim_C9_accept_ignores_candidate :
    ∀ st mid uid r ns0,
      pendingGet st mid = some ns0 →
      ns0.currentDriverUserId ≠ some uid →
      acceptPre st mid uid = true →
      (acceptMoveRequest st mid uid (some r)).err = none ∧
      (∀ mv d, findMove st mid = some mv →
        findDriverByUser st uid = some d →
        findMove (acceptMoveRequest st mid uid (some r)).state mid =
          some { mv with driver := some d.id,
                         status := MoveStatus.accepted }) := by
  intro st mid uid r ns0 hpg hne hpre
  obtain ⟨mv, d, hm, hd⟩ := acceptPre_true_elim st mid uid hpre
  have hs := accept_succ st mid uid (some r) mv d hm hd hpre
  constructor
  · rw [hs.2.2.2.2.2.2.1]; simp
  · intro mv' d' hm' hd'
    rw [hm] at hm'
    rw [hd] at hd'
    have hmv : mv' = mv := (Option.some_injective _ hm').symm
    have hdv : d' = d := (Option.some_injective _ hd').symm
    rw [hmv, hdv, hs.2.2.2.2.2.1]
    have hstep : findMove (pendingDelete (updateDriver (updateMove st mid
        (fun m => { m with driver := some d.id,
                           status := MoveStatus.accepted })) d.id
        (fun dr => { dr with isAvailable := false })) mid) mid =
        findMove (updateMove st mid
          (fun m => { m with driver := some d.id,
                             status := MoveStatus.accepted })) mid := rfl
    rw [hstep, findMove_updateMove st mid _ (by simp), hm]
    rfl

/-- State fixture for the C9 counterexample and witness: a `PENDING` move
whose live solicitation entry records candidate 90 (the user id of driver
document 9, with `currentDriverUserId` undefined as the engine stores it),
while a different eligible driver (document 10, user 100) exists. -/
def cexC9St : SysState :=
  ⟨[Move.mk 8 800 none MoveStatus.pending VehicleType.car none "pending"
      none none 0 0],
   [Driver.mk 9 90 true DriverStatus.accepted VehicleType.car 0,
    Driver.mk 10 100 true DriverStatus.accepted VehicleType.car 0],
   [(8, NotifState.mk 1 90 none [90])]⟩

/-- Counterexample to C9 as stated: driver user 100 was never offered move 8
(the pending solicitation round solicited candidate 90), yet their accept
succeeds and they become the assigned driver. -/
theorem claim_C9_counterexample :
    pendingGet cexC9St 8 = some (NotifState.mk 1 90 none [90]) ∧
    (90 : Nat) ≠ 100 ∧
    (acceptMoveRequest cexC9St 8 100 (some (Route.mk 3 4))).err = none ∧
    (findMove (acceptMoveRequest cexC9St 8 100
        (some (Route.mk 3 4))).state 8).map Move.driver = some (some 10) := by
  decide

/-- Witness for C9: the amended statement applied to the same fixture. -/
theorem claim_C9_accept_ignores_candidate_witness :
    (acceptMoveRequest cexC9St 8 100 (some (Route.mk 3 4))).err = none :=
  (claim_C9_accept_ignores_candidate cexC9St 8 100 (Route.mk 3 4)
    (NotifState.mk 1 90 none [90]) (by decide) (by decide) (by decide)).1

/-- State fixture for C8: a `PENDING` move (customer 110) and an eligible
driver (document 12, user 120). -/
def cexC8St : SysState :=
  ⟨[Move.mk 11 110 none MoveStatus.pending VehicleType.car none "pending"
      none none 0 0],
   [Driver.mk 12 120 true DriverStatus.accepted VehicleType.car 0], []⟩

/-- C8 (code bug): when the acceptance preconditions hold but the ETA/route
computation fails (`routeRes = none`), the transaction has already
committed — the move is `ACCEPTED` with the driver assigned — yet
`acceptMoveRequest` dereferences `route.distance` on `undefined` while
building the customer payload, so the customer match notification is never
sent, the driver is told the acceptance FAILED, and the call rejects with a
wrapped 500 error, contradicting the spec's "ETA computation failure must
not fail the accept" (the fallback `estimatedArrival = "5-10 minutes"` in
the source shows that intent). -/
theorem claim_C8_eta_failure_bug :
    acceptPre cexC8St 11 120 = true ∧
    (acceptMoveRequest cexC8St 11 120 none).err = some 500 ∧
    (findMove (acceptMoveRequest cexC8St 11 120 none).state 11).map
        Move.status = some MoveStatus.accepted ∧
    (findMove (acceptMoveRequest cexC8St 11 120 none).state 11).map
        Move.driver = some (some 12) ∧
    (acceptMoveRequest cexC8St 11 120 none).notifs =
      [Notif.driverAcceptFailed 120 11] := by
  decide

/-- C1: given the availability invariant — no driver has
`availability = true` while assigned to a non-terminal move — every engine
operation preserves it.  `acceptMoveRequest` preserves it genuinely: the
accepting driver's availability is set to `false` in the same atomic commit
as the assignment, and no driver is ever switched TO available (every
driver still available after an accept was already in the collection,
unchanged).  `updateMoveProgress` and `cancelMoveRequest` preserve it
degenerately because neither ever commits anything: the former rejects every
call at the nulled-populate driver guard, the latter aborts on the
schema-invalid `cancelled_by_*` statuses or rejects as unauthorized.
Availability is consequently never restored at all — so it is in particular
only ever "restored" at the points the claim allows. -/
theorem claim_C1_driver_availability :
    ∀ st, availInv st →
      (∀ mid uid r,
        availInv (acceptMoveRequest st mid uid r).state ∧
        (∀ mv d, findMove st mid = some mv →
          findDriverByUser st uid = some d → acceptPre st mid uid = true →
          findDriverByUser (acceptMoveRequest st mid uid r).state uid =
            some { d with isAvailable := false }) ∧
        (∀ d', d' ∈ (acceptMoveRequest st mid uid r).state.drivers →
          d'.isAvailable = true → d' ∈ st.drivers)) ∧
      (∀ mid uid ns,
        (updateMoveProgress st mid uid ns).state = st ∧
        availInv (updateMoveProgress st mid uid ns).state) ∧
      (∀ mid uid role reason now,
        (cancelMoveRequest st mid uid role reason now).state = st ∧
        availInv (cancelMoveRequest st mid uid role reason now).state) := by
  intro st ha
  refine ⟨?_, ?_, ?_⟩
  · intro mid uid r
    by_cases hpre : acceptPre st mid uid = true
    · obtain ⟨mv, d, hm, hd⟩ := acceptPre_true_elim st mid uid hpre
      have hs := accept_succ st mid uid r mv d hm hd hpre
      refine ⟨?_, ?_, ?_⟩
      · rw [hs.2.2.2.2.2.1]
        exact availInv_accept_update st mid d ha
      · intro mv' d' hm' hd' hpre'
        rw [hd] at hd'
        have hdv : d' = d := (Option.some_injective _ hd').symm
        rw [hdv, hs.2.2.2.2.2.1]
        have hstep : findDriverByUser (pendingDelete (updateDriver
            (updateMove st mid
              (fun m => { m with driver := some d.id,
                                 status := MoveStatus.accepted })) d.id
            (fun dr => { dr with isAvailable := false })) mid) uid =
            findDriverByUser (updateDriver (updateMove st mid
              (fun m => { m with driver := some d.id,
                                 status := MoveStatus.accepted })) d.id
              (fun dr => { dr with isAvailable := false })) uid := rfl
        rw [hstep, findDriverByUser_updateDriver _ uid d.id _ (by simp)]
        have hstep2 : findDriverByUser (updateMove st mid
            (fun m => { m with driver := some d.id,
                               status := MoveStatus.accepted })) uid =
            findDriverByUser st uid := rfl
        rw [hstep2, hd]
        simp
      · intro d' hd' hav'
        rw [hs.2.2.2.2.2.1] at hd'
        simp only [pendingDelete, updateDriver, updateMove,
          List.mem_map] at hd'
        obtain ⟨d0, hd0mem, rfl⟩ := hd'
        by_cases hdc : d0.id = d.id
        · simp [hdc] at hav'
        · simpa [hdc] using hd0mem
    · have hf := accept_fail st mid uid r (by simpa using hpre)
      rw [hf.1]
      exact ⟨ha, fun mv d _ _ hp => absurd hp hpre,
             fun d' hd' _ => hd'⟩
  · intro mid uid ns
    have h := (updateMoveProgress_noop st mid uid ns).1
    refine ⟨h, ?_⟩
    rw [h]
    exact ha
  · intro mid uid role reason now
    have h := (cancelMoveRequest_noop st mid uid role reason now).1
    refine ⟨h, ?_⟩
    rw [h]
    exact ha

/-- Witness for C1: at a concrete invariant-satisfying state the invariant
holds again after a successful accept, and the accepting driver (document 1,
user 10) ends unavailable. -/
theorem claim_C1_driver_availability_witness :
    availInv (acceptMoveRequest wC3St 1 10 (some (Route.mk 5 7))).state ∧
    findDriverByUser
        (acceptMoveRequest wC3St 1 10 (some (Route.mk 5 7))).state 10 =
      some (Driver.mk 1 10 false DriverStatus.accepted VehicleType.car 0) :=
  ⟨((claim_C1_driver_availability wC3St (by decide)).1 1 10
      (some (Route.mk 5 7))).1,
   ((claim_C1_driver_availability wC3St (by decide)).1 1 10
      (some (Route.mk 5 7))).2.1
     (Move.mk 1 100 none MoveStatus.pending VehicleType.car none "pending"
       none none 0 5)
     (Driver.mk 1 10 true DriverStatus.accepted VehicleType.car 0)
     (by decide) (by decide) (by decide)⟩

/-- C2 (amended): `_isValidStatusTransition` coincides exactly with the
§4.3 table and refuses every transition out of a terminal state — but the
table governs almost nothing that commits.  The only status change any
operation ever commits is `PENDING → ACCEPTED` through `acceptMoveRequest`,
which is in the table; `updateMoveProgress` rejects every call with the
record unchanged (the nulled-populate driver guard fires before the
transition check), `cancelMoveRequest` rejects every call with the record
unchanged (403/404, or the wrapped schema-validation 500 for authorized
actors — not an invalid-transition/unauthorized rejection), and the decline
cascade never changes any move document. -/
theorem claim_C2_transition_table :
    (∀ s t, isValidStatusTransition s t = specLegalTransition s t) ∧
    (∀ s t, s ∈ terminalStates → isValidStatusTransition s t = false) ∧
    (∀ st mid uid ns, (updateMoveProgress st mid uid ns).state = st ∧
      (updateMoveProgress st mid uid ns).err ≠ none) ∧
    (∀ st mid uid role reason now,
      (cancelMoveRequest st mid uid role reason now).state = st ∧
      (cancelMoveRequest st mid uid role reason now).err ≠ none) ∧
    (∀ st mid duid cands,
      (handleDriverRejection st mid duid cands).state.moves = st.moves) ∧
    (∀ st mid uid r mv mv', findMove st mid = some mv →
      findMove (acceptMoveRequest st mid uid r).state mid = some mv' →
      mv'.status = mv.status ∨
        (mv.status = MoveStatus.pending ∧
         mv'.status = MoveStatus.accepted ∧
         isValidStatusTransition mv.status mv'.status = true)) := by
  refine ⟨by decide, by decide, ?_, ?_, ?_, ?_⟩
  · intro st mid uid ns
    exact ⟨(updateMoveProgress_noop st mid uid ns).1,
           (updateMoveProgress_noop st mid uid ns).2.2⟩
  · intro st mid uid role reason now
    exact ⟨(cancelMoveRequest_noop st mid uid role reason now).1,
           (cancelMoveRequest_noop st mid uid role reason now).2.2⟩
  · exact rejection_moves_unchanged
  · intro st mid uid r mv mv' hm hm'
    by_cases hpre : acceptPre st mid uid = true
    · obtain ⟨mv0, d, hm0, hd⟩ := acceptPre_true_elim st mid uid hpre
      have hmveq : mv0 = mv := by
        rw [hm0] at hm
        exact Option.some_injective _ hm
      have hs := accept_succ st mid uid r mv0 d hm0 hd hpre
      rw [hs.2.2.2.2.2.1] at hm'
      have hstep : findMove (pendingDelete (updateDriver (updateMove st mid
          (fun m => { m with driver := some d.id,
                             status := MoveStatus.accepted })) d.id
          (fun dr => { dr with isAvailable := false })) mid) mid =
          findMove (updateMove st mid
            (fun m => { m with driver := some d.id,
                               status := MoveStatus.accepted })) mid := rfl
      rw [hstep, findMove_updateMove st mid
        (fun m => { m with driver := some d.id,
                           status := MoveStatus.accepted })
        (by simp), hm0] at hm'
      have hmv' : mv' = { mv0 with driver := some d.id,
                                   status := MoveStatus.accepted } := by
        simpa using hm'.symm
      right
      rw [← hmveq, hmv']
      refine ⟨hs.1, rfl, ?_⟩
      rw [hs.1]
      show isValidStatusTransition MoveStatus.pending MoveStatus.accepted = true
      decide
    · have hf := accept_fail st mid uid r (by simpa using hpre)
      rw [hf.1, hm] at hm'
      left
      rw [Option.some_injective _ hm'.symm]

/-- State fixture for the C2 counterexample: a `DELIVERED` (terminal) move. -/
def cexC2St : SysState :=
  ⟨[Move.mk 2 200 none MoveStatus.delivered VehicleType.truck none "paid"
      none none 0 0], [], []⟩

/-- Counterexample to C2 as stated: admin cancellation of a `DELIVERED` move
is an attempted transition out of a terminal state; the claim requires it to
be rejected with an invalid-transition or unauthorized error, but it is
rejected with the wrapped schema-validation 500 (the `cancelled_by_admin`
save fails the enum) — though the record is indeed unchanged. -/
theorem claim_C2_counterexample :
    isValidStatusTransition MoveStatus.delivered
      MoveStatus.cancelledByAdmin = false ∧
    (cancelMoveRequest cexC2St 2 999 Role.admin "cleanup" 7).err = some 500 ∧
    (cancelMoveRequest cexC2St 2 999 Role.admin "cleanup" 7).err ≠ some 400 ∧
    (cancelMoveRequest cexC2St 2 999 Role.admin "cleanup" 7).err ≠ some 403 ∧
    (cancelMoveRequest cexC2St 2 999 Role.admin "cleanup" 7).state = cexC2St := by
  decide

/-- Witness for C2 (amended): the one committed transition,
`PENDING → ACCEPTED` by a successful accept at a concrete state,
instantiates the accept conjunct. -/
theorem claim_C2_transition_table_witness :
    (Move.mk 1 100 (some 1) MoveStatus.accepted VehicleType.car none
        "pending" none none 0 5).status =
      (Move.mk 1 100 none MoveStatus.pending VehicleType.car none "pending"
        none none 0 5).status ∨
    ((Move.mk 1 100 none MoveStatus.pending VehicleType.car none "pending"
        none none 0 5).status = MoveStatus.pending ∧
     (Move.mk 1 100 (some 1) MoveStatus.accepted VehicleType.car none
        "pending" none none 0 5).status = MoveStatus.accepted ∧
     isValidStatusTransition
       (Move.mk 1 100 none MoveStatus.pending VehicleType.car none "pending"
         none none 0 5).status
       (Move.mk 1 100 (some 1) MoveStatus.accepted VehicleType.car none
         "pending" none none 0 5).status = true) :=
  claim_C2_transition_table.2.2.2.2.2 wC3St 1 10 (some (Route.mk 5 7))
    (Move.mk 1 100 none MoveStatus.pending VehicleType.car none "pending"
      none none 0 5)
    (Move.mk 1 100 (some 1) MoveStatus.accepted VehicleType.car none
      "pending" none none 0 5)
    (by decide) (by decide)

/-- C4 (amended): each move sees at most ONE solicitation round.
`_findAndNotifyDrivers` picks exactly the top-ranked candidate outside the
exclusion set, records the round entry (attempt 1, exclusion set exactly
that candidate, `currentDriverUserId` undefined) and emits exactly one offer
notification — but to the `undefined` user room, since the geo candidates
carry no `driverUserId`; with no candidates on the first attempt, the
`NO_DRIVERS_AVAILABLE` marking fails the schema enum, so the operation
aborts with an error and the customer is never notified.  Every decline or
timeout against such an entry throws at the undefined `currentDriverUserId`
guard and only deletes the entry: the attempt counter never increments, the
exclusion set never grows, no second driver is ever solicited (so at most
one — hence trivially at most 3 — candidates are ever offered a given
move), and `NO_DRIVERS_AVAILABLE` is never committed. -/
theorem claim_C4_solicitation_protocol :
    (∀ st mv (all : List Candidate) attempt excl c rest,
      all.filter (fun cc => decide (cc.driverId ∉ excl)) = c :: rest →
      (findAndNotifyDrivers st mv (some all) attempt excl).err = none ∧
      (findAndNotifyDrivers st mv (some all) attempt excl).notifs =
        [Notif.driverOffer none mv.id] ∧
      pendingGet (findAndNotifyDrivers st mv (some all) attempt excl).state
          mv.id =
        some (NotifState.mk 1 c.driverId none [c.driverId])) ∧
    (∀ st mv (all : List Candidate) excl,
      all.filter (fun cc => decide (cc.driverId ∉ excl)) = [] →
      findAndNotifyDrivers st mv (some all) 1 excl =
        OpResult.mk st [] (some 500)) ∧
    (∀ st mid duid cands ns,
      pendingGet st mid = some ns → ns.currentDriverUserId = none →
      handleDriverRejection st mid duid cands =
        OpResult.mk (pendingDelete st mid) [] none ∧
      handleDriverResponseTimeout st mid cands =
        OpResult.mk (pendingDelete st mid) [] none) := by
  refine ⟨?_, ?_, ?_⟩
  · intro st mv all attempt excl c rest hfilter
    unfold findAndNotifyDrivers
    dsimp only
    rw [hfilter]
    dsimp only
    by_cases hatt : attempt = 1
    · rw [if_pos hatt, saveMoveStatus_pending]
      exact ⟨rfl, rfl, pendingGet_pendingSet_self _ _ _⟩
    · rw [if_neg hatt]
      exact ⟨rfl, rfl, pendingGet_pendingSet_self _ _ _⟩
  · intro st mv all excl hfilter
    unfold findAndNotifyDrivers
    dsimp only
    rw [hfilter]
    dsimp only
    rw [if_pos rfl, saveMoveStatus_nda]
  · intro st mid duid cands ns hpg hcu
    refine ⟨rejection_deletes_entry st mid duid cands ns hpg hcu, ?_⟩
    unfold handleDriverResponseTimeout
    rw [hpg]
    dsimp only
    exact rejection_deletes_entry st mid ns.currentDriverUserId cands ns hpg hcu

/-- State fixture for the C4 counterexample: a `PENDING` move with a live
first-round solicitation entry for candidate 90 (as the engine creates it:
`currentDriverUserId` undefined, exclusion set `[90]`). -/
def cexC4St : SysState :=
  ⟨[Move.mk 15 150 none MoveStatus.pending VehicleType.car none "pending"
      none none 0 0], [],
   [(15, NotifState.mk 1 90 none [90])]⟩

/-- Counterexample to C4 as stated: a decline of the live round for move 15
with a fresh candidate (91) available outside the exclusion set neither
increments the attempt counter, nor offers the next candidate, nor marks
`NO_DRIVERS_AVAILABLE`: it emits no notification at all and destroys the
round entry, leaving the move `PENDING` with no further solicitation. -/
theorem claim_C4_counterexample :
    (handleDriverRejection cexC4St 15 (some 90)
        (some [Candidate.mk 91])).notifs = [] ∧
    pendingGet (handleDriverRejection cexC4St 15 (some 90)
        (some [Candidate.mk 91])).state 15 = none ∧
    (findMove (handleDriverRejection cexC4St 15 (some 90)
        (some [Candidate.mk 91])).state 15).map Move.status =
      some MoveStatus.pending := by
  decide

/-- Witness for C4 (amended): a concrete first round emits exactly one offer
(to the undefined room), and a concrete decline of a live entry merely
deletes it. -/
theorem claim_C4_solicitation_protocol_witness :
    (findAndNotifyDrivers
        (SysState.mk [Move.mk 15 150 none MoveStatus.pending VehicleType.car
          none "pending" none none 0 0] [] [])
        (Move.mk 15 150 none MoveStatus.pending VehicleType.car none
          "pending" none none 0 0)
        (some [Candidate.mk 90, Candidate.mk 91]) 1 []).notifs =
      [Notif.driverOffer none 15] ∧
    handleDriverRejection cexC4St 15 (some 90) (some [Candidate.mk 91]) =
      OpResult.mk (pendingDelete cexC4St 15) [] none :=
  ⟨(claim_C4_solicitation_protocol.1
      (SysState.mk [Move.mk 15 150 none MoveStatus.pending VehicleType.car
        none "pending" none none 0 0] [] [])
      (Move.mk 15 150 none MoveStatus.pending VehicleType.car none "pending"
        none none 0 0)
      [Candidate.mk 90, Candidate.mk 91] 1 [] (Candidate.mk 90)
      [Candidate.mk 91] (by decide)).2.1,
   (claim_C4_solicitation_protocol.2.2 cexC4St 15 (some 90)
      (some [Candidate.mk 91]) (NotifState.mk 1 90 none [90])
      (by decide) (by decide)).1⟩

/-- C6 (amended): `cancelMove` never succeeds.  Unauthorized actor/state
combinations — which include every driver attempt, since the `ref:'user'`
populate nulls `move.driver` and disables the driver branch — are rejected
with a 403; the combinations the chain authorizes (the owning customer
while `PENDING`/`ACCEPTED`, an admin from any state) reach the status
write, whose `cancelled_by_*` value fails the `Move` schema enum, so the
save throws and the call rejects with the wrapped 500.  In every case the
move is unchanged — no cancelled status, reason or timestamp is recorded —
nothing is notified, and no driver availability changes. -/
theorem claim_C6_cancel_authorization :
    ∀ st mid uid role reason now,
      (cancelMoveRequest st mid uid role reason now).state = st ∧
      (cancelMoveRequest st mid uid role reason now).notifs = [] ∧
      (cancelMoveRequest st mid uid role reason now).err ≠ none ∧
      (∀ mv, findMove st mid = some mv →
        ((cancelMoveRequest st mid uid role reason now).err = some 500 ↔
          ((role = Role.customer ∧ mv.customer = uid ∧
             (mv.status = MoveStatus.pending ∨
              mv.status = MoveStatus.accepted)) ∨
           role = Role.admin)) ∧
        (role = Role.driver →
          (cancelMoveRequest st mid uid role reason now).err = some 403)) := by
  intro st mid uid role reason now
  obtain ⟨hst, hnf, herr⟩ := cancelMoveRequest_noop st mid uid role reason now
  refine ⟨hst, hnf, herr, ?_⟩
  intro mv hm
  unfold cancelMoveRequest
  rw [hm]
  dsimp only
  cases hns : cancelNewStatus st mv uid role with
  | none =>
    dsimp only
    constructor
    · constructor
      · intro h
        exact absurd h (by simp)
      · intro hleg
        have hsome := cancelNewStatus_some_of st mv uid role hleg
        rw [hns] at hsome
        exact absurd hsome (by simp)
    · intro hr
      rfl
  | some n =>
    dsimp only
    have hinv := cancelNewStatus_invalid st mv uid role n hns
    rw [if_neg (by simp [hinv])]
    constructor
    · constructor
      · intro hh
        rcases cancelNewStatus_cases st mv uid role n hns with
          ⟨hr, ho, hsq, hn⟩ | ⟨hr, hn⟩
        · exact Or.inl ⟨hr, ho, hsq⟩
        · exact Or.inr hr
      · intro hh
        rfl
    · intro hr
      rcases cancelNewStatus_cases st mv uid role n hns with
        ⟨hr2, ho, hsq, hn⟩ | ⟨hr2, hn⟩ <;>
      · rw [hr] at hr2
        exact absurd hr2 (by simp)

/-- Fixtures for the C6 counterexample: a `PENDING` move owned by customer
400, and an `ACCEPTED` move assigned to driver document 7 (user 70). -/
def cexC6St : SysState :=
  ⟨[Move.mk 4 400 none MoveStatus.pending VehicleType.van none "pending"
      none none 0 0], [], []⟩

def cexC6bSt : SysState :=
  ⟨[Move.mk 5 500 (some 7) MoveStatus.accepted VehicleType.van none
      "pending" none none 0 0],
   [Driver.mk 7 70 false DriverStatus.accepted VehicleType.van 0], []⟩

/-- Counterexample to C6 as stated: the owning customer cancelling their own
`PENDING` move — the claim's paradigmatic legal combination — does NOT
succeed: the `cancelled_by_customer` save fails the schema enum and the call
rejects with the wrapped 500, the move unchanged; and the assigned driver
cancelling their own `ACCEPTED` move — also legal per the claim — is
rejected as unauthorized (403), because the `ref:'user'` populate nulls
`move.driver`. -/
theorem claim_C6_counterexample :
    (cancelMoveRequest cexC6St 4 400 Role.customer "changed my mind" 9).err =
      some 500 ∧
    (cancelMoveRequest cexC6St 4 400 Role.customer "changed my mind" 9).state =
      cexC6St ∧
    (cancelMoveRequest cexC6bSt 5 70 Role.driver "mechanical issue" 9).err =
      some 403 ∧
    (cancelMoveRequest cexC6bSt 5 70 Role.driver "mechanical issue" 9).state =
      cexC6bSt := by
  decide

/-- Witness for C6 (amended): at a concrete state the customer-legal cancel
errors with 500 and leaves the state unchanged. -/
theorem claim_C6_cancel_authorization_witness :
    (cancelMoveRequest cexC6St 4 400 Role.customer "w" 1).state = cexC6St ∧
    ((cancelMoveRequest cexC6St 4 400 Role.customer "w" 1).err = some 500 ↔
      ((Role.customer = Role.customer ∧
        (Move.mk 4 400 none MoveStatus.pending VehicleType.van none "pending"
          none none 0 0).customer = 400 ∧
        ((Move.mk 4 400 none MoveStatus.pending VehicleType.van none
            "pending" none none 0 0).status = MoveStatus.pending ∨
         (Move.mk 4 400 none MoveStatus.pending VehicleType.van none
            "pending" none none 0 0).status = MoveStatus.accepted)) ∨
       Role.customer = Role.admin)) :=
  ⟨(claim_C6_cancel_authorization cexC6St 4 400 Role.customer "w" 1).1,
   ((claim_C6_cancel_authorization cexC6St 4 400 Role.customer "w" 1).2.2.2
     (Move.mk 4 400 none MoveStatus.pending VehicleType.van none "pending"
       none none 0 0) (by decide)).1⟩

/-- C7 (amended): a decline or timeout for a move with NO pending entry —
in particular after an accept, which always clears the entry — is an exact
no-op, and repeating a decline once the entry is gone is again a no-op; but
a decline arriving while an entry is live is NOT a no-op, whoever it comes
from: the entry's `currentDriverUserId` is `undefined`, the guard's
`.toString()` throws, and the catch deletes the pending entry (the move and
driver documents are untouched). -/
theorem claim_C7_stale_decline :
    ∀ st mid duid cands,
      (pendingGet st mid = none →
        handleDriverRejection st mid duid cands = OpResult.mk st [] none ∧
        handleDriverResponseTimeout st mid cands = OpResult.mk st [] none) ∧
      (∀ uid2 rr, (acceptMoveRequest st mid uid2 rr).err = none →
        pendingGet (acceptMoveRequest st mid uid2 rr).state mid = none) ∧
      (∀ ns, pendingGet st mid = some ns → ns.currentDriverUserId = none →
        handleDriverRejection st mid duid cands =
          OpResult.mk (pendingDelete st mid) [] none ∧
        handleDriverRejection
            (handleDriverRejection st mid duid cands).state mid duid cands =
          OpResult.mk (pendingDelete st mid) [] none) := by
  intro st mid duid cands
  have hnone : ∀ s : SysState, pendingGet s mid = none →
      handleDriverRejection s mid duid cands = OpResult.mk s [] none := by
    intro s h
    unfold handleDriverRejection
    rw [h]
  refine ⟨?_, ?_, ?_⟩
  · intro h
    refine ⟨hnone st h, ?_⟩
    unfold handleDriverResponseTimeout
    rw [h]
  · intro uid2 rr herr
    by_cases hpre : acceptPre st mid uid2 = true
    · obtain ⟨mv, d, hm, hd⟩ := acceptPre_true_elim st mid uid2 hpre
      have hs := accept_succ st mid uid2 rr mv d hm hd hpre
      rw [hs.2.2.2.2.2.1]
      exact pendingGet_pendingDelete_self _ mid
    · have hf := accept_fail st mid uid2 rr (by simpa using hpre)
      exact absurd herr hf.2
  · intro ns hpg hcu
    have h1 := rejection_deletes_entry st mid duid cands ns hpg hcu
    refine ⟨h1, ?_⟩
    rw [h1]
    exact hnone _ (pendingGet_pendingDelete_self st mid)

/-- State fixture for the C7 counterexample: a `PENDING` move with a live
engine-created solicitation entry (candidate 90, `currentDriverUserId`
undefined). -/
def cexC7St : SysState :=
  ⟨[Move.mk 8 800 none MoveStatus.pending VehicleType.car none "pending"
      none none 0 0], [],
   [(8, NotifState.mk 1 90 none [90])]⟩

/-- Counterexample to C7 as stated: a decline from user 777 — not the
solicited candidate of the live round for move 8 — is not a no-op: it
destroys the pending solicitation entry, so the round can never resume. -/
theorem claim_C7_counterexample :
    pendingGet cexC7St 8 = some (NotifState.mk 1 90 none [90]) ∧
    (handleDriverRejection cexC7St 8 (some 777)
        (some [Candidate.mk 91])).state ≠ cexC7St ∧
    pendingGet (handleDriverRejection cexC7St 8 (some 777)
        (some [Candidate.mk 91])).state 8 = none := by
  decide

/-- Witness for C7 (amended): a concrete no-entry decline is a no-op, and a
concrete live-entry decline deletes exactly the entry. -/
theorem claim_C7_stale_decline_witness :
    handleDriverRejection (SysState.mk [] [] []) 8 (some 90) (some []) =
      OpResult.mk (SysState.mk [] [] []) [] none ∧
    handleDriverRejection cexC7St 8 (some 90) (some []) =
      OpResult.mk (pendingDelete cexC7St 8) [] none :=
  ⟨((claim_C7_stale_decline (SysState.mk [] [] []) 8 (some 90) (some [])).1
      (by decide)).1,
   ((claim_C7_stale_decline cexC7St 8 (some 90) (some [])).2.2
      (NotifState.mk 1 90 none [90]) (by decide) (by decide)).1⟩

/-- C10 (amended): a Geo Matching Provider failure during a solicitation
attempt is not absorbed.  In `_findAndNotifyDrivers` it aborts the
transaction and propagates an error — and the genuine "no candidates on the
first attempt" outcome behaves identically, because its
`NO_DRIVERS_AVAILABLE` save fails the schema enum: in both cases the
ongoing operation fails, the move is left unchanged (`PENDING`) and the
customer is not notified.  In `handleDriverRejection` a geo failure never
even matters: any decline or timeout against an engine-created entry throws
at the undefined `currentDriverUserId` guard first and merely deletes the
entry, so no later attempt or timeout cycle exists to retry. -/
theorem claim_C10_geo_failure_handling :
    (∀ st mv attempt excl,
      findAndNotifyDrivers st mv none attempt excl =
        OpResult.mk st [] (some 500)) ∧
    (∀ st mv (all : List Candidate) excl,
      all.filter (fun c => decide (c.driverId ∉ excl)) = [] →
      findAndNotifyDrivers st mv (some all) 1 excl =
        findAndNotifyDrivers st mv none 1 excl) ∧
    (∀ st mid duid cands ns,
      pendingGet st mid = some ns → ns.currentDriverUserId = none →
      handleDriverRejection st mid duid cands =
        OpResult.mk (pendingDelete st mid) [] none) := by
  refine ⟨fun st mv attempt excl => rfl, ?_, ?_⟩
  · intro st mv all excl hfilter
    unfold findAndNotifyDrivers
    dsimp only
    rw [hfilter]
    dsimp only
    rw [if_pos rfl, saveMoveStatus_nda]
  · intro st mid duid cands ns hpg hcu
    exact rejection_deletes_entry st mid duid cands ns hpg hcu

/-- Fixture for the C10 counterexample: a `PENDING` move awaiting
solicitation. -/
def cexC10Mv : Move :=
  Move.mk 13 130 none MoveStatus.pending VehicleType.truck none "pending"
    none none 0 0

def cexC10St : SysState := ⟨[cexC10Mv], [], []⟩

/-- Counterexample to C10 as stated: the geo failure is NOT absorbed — the
solicitation attempt fails the ongoing operation with an error, the move
stays `PENDING`, nobody is notified and nothing is retried; moreover the
genuine empty-candidate outcome produces the very same failure, not the
claimed mark-`NO_DRIVERS_AVAILABLE`-and-notify behaviour. -/
theorem claim_C10_counterexample :
    (findAndNotifyDrivers cexC10St cexC10Mv none 1 []).err = some 500 ∧
    (findAndNotifyDrivers cexC10St cexC10Mv none 1 []).notifs = [] ∧
    (findMove (findAndNotifyDrivers cexC10St cexC10Mv none 1 []).state
        13).map Move.status = some MoveStatus.pending ∧
    findAndNotifyDrivers cexC10St cexC10Mv (some []) 1 [] =
      findAndNotifyDrivers cexC10St cexC10Mv none 1 [] := by
  decide

/-- Witness for C10 (amended): the empty-candidate first attempt coincides
with the geo-failure outcome at a concrete state, and a concrete decline
against a live entry deletes exactly the entry. -/
theorem claim_C10_geo_failure_handling_witness :
    findAndNotifyDrivers cexC10St cexC10Mv (some []) 1 [] =
      findAndNotifyDrivers cexC10St cexC10Mv none 1 [] ∧
    handleDriverRejection cexC7St 8 none (some []) =
      OpResult.mk (pendingDelete cexC7St 8) [] none :=
  ⟨claim_C10_geo_failure_handling.2.1 cexC10St cexC10Mv [] [] (by decide),
   claim_C10_geo_failure_handling.2.2 cexC7St 8 none (some [])
     (NotifState.mk 1 90 none [90]) (by decide) (by decide)⟩

end SwiftMove
